import Mathlib

/-!
Verification development for the TC-DNA task-orchestration and synthetic-input
subsystem (src/utils/task/task_manager.py, src/utils/input/*.py).

Shallow embedding conventions:
* Effectful Python code is modelled in a hand-rolled state-plus-exception
  monad `PyM`: a computation maps the event trace emitted so far to a result
  (`Except PyErr`) together with the extended trace.  Effects performed before
  an exception persist in the trace, exactly as messages already sent by the
  Python code stay sent when a later statement raises.
* Durations are integers counting centiseconds (0.01 s = 1), so the fixed
  `time.sleep(0.01)` delays of the source are `timeSleep 1`; only the sign and
  the ordering of durations matter to any claim.  Python's `time.sleep`
  raises `ValueError` on a negative argument, which `timeSleep` reproduces.
* `win32gui.SendMessage` is abstracted by an environment `Env`: a window
  validity predicate and an uninterpreted result function for delivered
  messages.  A completed send never returns `None`, matching pywin32.
-/

/-- Python exception classes that the embedded code can raise. -/
inductive PyErr where
  | valueError (msg : String)
  | runtimeError (msg : String)
deriving DecidableEq

/-- Observable effects of the input subsystem: a window message delivered by
`SendMessage`, or a suspension of the calling thread (centiseconds). -/
inductive Event where
  | sent (hwnd : Int) (msg : Nat) (wparam : Int) (lparam : Int)
  | slept (cs : Int)
deriving DecidableEq

/-- A Python computation: given the trace emitted so far, produce a result or
an exception, together with the extended trace. -/
@[reducible] def PyM (α : Type) : Type := List Event → Except PyErr α × List Event

def pyPure {α : Type} (a : α) : PyM α := fun t => (Except.ok a, t)

def pyBind {α β : Type} (x : PyM α) (f : α → PyM β) : PyM β := fun t =>
  match x t with
  | (Except.ok a, t1) => f a t1
  | (Except.error e, t1) => (Except.error e, t1)

def pyThrow {α : Type} (e : PyErr) : PyM α := fun t => (Except.error e, t)

/-- Python `try ... except Exception as e: handler`: effects performed before
the exception stay in the trace. -/
def pyTry {α : Type} (x : PyM α) (h : PyErr → PyM α) : PyM α := fun t =>
  match x t with
  | (Except.ok a, t1) => (Except.ok a, t1)
  | (Except.error e, t1) => h e t1

def liftExc {α : Type} : Except PyErr α → PyM α
  | Except.ok a => pyPure a
  | Except.error e => pyThrow e

def emit (e : Event) : PyM Unit := fun t => (Except.ok (), t ++ [e])

/-- `time.sleep(d)`: raises `ValueError` when `d` is negative, otherwise
suspends the calling thread. -/
def timeSleep (d : Int) : PyM Unit :=
  if d < 0 then pyThrow (PyErr.valueError "sleep length must be non-negative")
  else emit (Event.slept d)

/-- Run a computation on the empty trace. -/
def runPy {α : Type} (x : PyM α) : Except PyErr α × List Event := x []

/-! ## Python string helpers

Character-list implementations of the Python string methods the sources use
(`lower`, `upper`, `strip`, `split('+')`, `in`), ASCII-faithful and written
by structural recursion so that concrete instances evaluate by `rfl`. -/

def pyToLower (s : String) : String := String.mk (s.data.map Char.toLower)

def pyToUpper (s : String) : String := String.mk (s.data.map Char.toUpper)

def pyTrimList (l : List Char) : List Char :=
  ((l.dropWhile Char.isWhitespace).reverse.dropWhile Char.isWhitespace).reverse

/-- Python `s.strip()`. -/
def pyTrim (s : String) : String := String.mk (pyTrimList s.data)

/-- Python `c in s`. -/
def pyContainsChar (c : Char) (s : String) : Bool := s.data.contains c

def splitOnCharList (c : Char) : List Char → List (List Char)
  | [] => [[]]
  | x :: xs =>
    let r := splitOnCharList c xs
    if x == c then [] :: r
    else
      match r with
      | [] => [[x]]
      | g :: gs => (x :: g) :: gs

/-- Python `s.split('+')` (note `"".split('+') == ['']`). -/
def pySplitPlus (s : String) : List String :=
  (splitOnCharList (Char.ofNat 43) s.data).map String.mk

/-! ## Window-message primitives (src/utils/input/window_message.py) -/

def WM_KEYDOWN : Nat := 0x0100
def WM_KEYUP : Nat := 0x0101
def WM_MOUSEWHEEL : Nat := 0x020A

/-- `WindowMessage.VIRTUAL_KEYS` (window_message.py lines 34-58). -/
def VIRTUAL_KEYS : List (String × Nat) := [
  ("a", 0x41), ("b", 0x42), ("c", 0x43), ("d", 0x44), ("e", 0x45), ("f", 0x46),
  ("g", 0x47), ("h", 0x48), ("i", 0x49), ("j", 0x4A), ("k", 0x4B), ("l", 0x4C),
  ("m", 0x4D), ("n", 0x4E), ("o", 0x4F), ("p", 0x50), ("q", 0x51), ("r", 0x52),
  ("s", 0x53), ("t", 0x54), ("u", 0x55), ("v", 0x56), ("w", 0x57), ("x", 0x58),
  ("y", 0x59), ("z", 0x5A),
  ("0", 0x30), ("1", 0x31), ("2", 0x32), ("3", 0x33), ("4", 0x34),
  ("5", 0x35), ("6", 0x36), ("7", 0x37), ("8", 0x38), ("9", 0x39),
  ("f1", 0x70), ("f2", 0x71), ("f3", 0x72), ("f4", 0x73), ("f5", 0x74),
  ("f6", 0x75), ("f7", 0x76), ("f8", 0x77), ("f9", 0x78), ("f10", 0x79),
  ("f11", 0x7A), ("f12", 0x7B),
  ("space", 0x20), ("enter", 0x0D), ("esc", 0x1B), ("tab", 0x09),
  ("backspace", 0x08), ("delete", 0x2E), ("insert", 0x2D), ("home", 0x24),
  ("end", 0x23), ("pageup", 0x21), ("pagedown", 0x22),
  ("left", 0x25), ("up", 0x26), ("right", 0x27), ("down", 0x28),
  (";", 0xBA), ("=", 0xBB), (",", 0xBC), ("-", 0xBD), (".", 0xBE), ("/", 0xBF),
  ("`", 0xC0), ("[", 0xDB), ("\\", 0xDC), ("]", 0xDD), ("\x27", 0xDE),
  ("shift", 0x10), ("ctrl", 0x11), ("alt", 0x12), ("win", 0x5B)]

def lookupVK (k : String) : Option Nat :=
  (VIRTUAL_KEYS.find? (fun p => p.1 == k)).map (fun p => p.2)

/-- `WindowMessage.get_virtual_key` (lines 68-77): lowercase the name, look it
up in the table; a single character falls back to `ord(key.upper())`
(ASCII-faithful via `Char.toUpper`); anything else raises `ValueError`. -/
def get_virtual_key (key : String) : Except PyErr Nat :=
  let k := pyToLower key
  match lookupVK k with
  | some code => Except.ok code
  | none =>
    if k.length = 1 then
      Except.ok (((pyToUpper k).data.headD ' ').toNat)
    else Except.error (PyErr.valueError "unknown key")

/-- A `Union[str, int]` key argument. -/
inductive KeyArg where
  | name (s : String)
  | code (c : Nat)
deriving DecidableEq

/-- The `isinstance(key, str)` dispatch shared by the key primitives. -/
def resolveKey : KeyArg → Except PyErr Nat
  | KeyArg.name s => get_virtual_key s
  | KeyArg.code c => Except.ok c

/-- Environment abstracting the Win32 layer: which handles `IsWindow` accepts,
the `LRESULT` a delivered message produces, `GetAsyncKeyState` at the moment
`is_key_pressed` samples it, and the key state at each iteration of the
`wait_for_key_release` polling loop. -/
structure Env where
  validWin : Int → Bool
  sendResult : Int → Nat → Int → Int → Int
  asyncKeyState : Nat → Bool
  keyStateAt : Nat → Nat → Bool

/-- `WindowMessage.send_message` (lines 88-97): invalid handle raises
`ValueError`; otherwise the message is delivered and the `LRESULT` returned
(never `None`). -/
def send_message (env : Env) (hwnd : Int) (msg : Nat) (wparam lparam : Int) :
    PyM (Option Int) :=
  if env.validWin hwnd = false then
    pyThrow (PyErr.valueError "invalid window handle")
  else
    pyBind (emit (Event.sent hwnd msg wparam lparam)) (fun _ =>
      pyPure (some (env.sendResult hwnd msg wparam lparam)))

/-- `result is not None or result == 0` (lines 256, 282). -/
def pyResultOk (r : Option Int) : Bool := r.isSome || r == some 0

/-- `WindowMessage.send_key_down` (lines 110-116): resolve, then
`send_message(hwnd, WM_KEYDOWN, key, 0)`; no try/except of its own. -/
def send_key_down (env : Env) (hwnd : Int) (key : KeyArg) : PyM (Option Int) :=
  pyBind (liftExc (resolveKey key)) (fun kc =>
    send_message env hwnd WM_KEYDOWN (Int.ofNat kc) 0)

/-- `WindowMessage.send_key_up` (lines 118-126): resolve, then
`send_message(hwnd, WM_KEYUP, key, 1)`. -/
def send_key_up (env : Env) (hwnd : Int) (key : KeyArg) : PyM (Option Int) :=
  pyBind (liftExc (resolveKey key)) (fun kc =>
    send_message env hwnd WM_KEYUP (Int.ofNat kc) 1)

/-- `WindowMessage.key_down_press` (lines 234-259): resolve, send WM_KEYDOWN
with lparam 1, return `result is not None or result == 0`; any exception is
re-raised as `RuntimeError`. -/
def key_down_press (env : Env) (hwnd : Int) (key : KeyArg) : PyM Bool :=
  pyTry
    (pyBind (liftExc (resolveKey key)) (fun kc =>
      pyBind (send_message env hwnd WM_KEYDOWN (Int.ofNat kc) 1) (fun r =>
        pyPure (pyResultOk r))))
    (fun _ => pyThrow (PyErr.runtimeError "key down press failed"))

/-- `WindowMessage.key_down_release` (lines 261-285): as `key_down_press`
with WM_KEYUP. -/
def key_down_release (env : Env) (hwnd : Int) (key : KeyArg) : PyM Bool :=
  pyTry
    (pyBind (liftExc (resolveKey key)) (fun kc =>
      pyBind (send_message env hwnd WM_KEYUP (Int.ofNat kc) 1) (fun r =>
        pyPure (pyResultOk r))))
    (fun _ => pyThrow (PyErr.runtimeError "key down release failed"))

/-- `WindowMessage.key_press_and_hold` (lines 424-449): down, `time.sleep
(duration)`, up; any exception (including the `ValueError` a negative
duration provokes in `time.sleep`) is re-raised as `RuntimeError`. -/
def key_press_and_hold (env : Env) (hwnd : Int) (key : KeyArg) (duration : Int) :
    PyM Bool :=
  pyTry
    (pyBind (key_down_press env hwnd key) (fun ok =>
      if ok = false then pyPure false
      else
        pyBind (timeSleep duration) (fun _ =>
          key_down_release env hwnd key)))
    (fun _ => pyThrow (PyErr.runtimeError "key press and hold failed"))

/-- Python `x & 0xFFFF` on an arbitrary int is its value modulo 2^16
(two's-complement bitwise AND with a low-bit mask). -/
def andFFFF (x : Int) : Int := x % 65536

/-- Python `(y << 16) | (x & 0xFFFF)`: the low 16 bits of `y << 16` are zero,
so the OR is exactly `y * 2^16 + (x mod 2^16)`, for negative `y` as well. -/
def mouseLParam (x y : Int) : Int := y * 65536 + andFFFF x

/-- `wparam = (delta << 16) & 0xFFFF` (window_message.py line 189). -/
def wheelWParam (delta : Int) : Int := andFFFF (delta * 65536)

/-- `WindowMessage.send_mouse_wheel` (lines 184-192). -/
def send_mouse_wheel (env : Env) (hwnd : Int) (delta x y : Int) :
    PyM (Option Int) :=
  send_message env hwnd WM_MOUSEWHEEL (wheelWParam delta) (mouseLParam x y)

/-- `MouseInput.send_wheel` (mouse.py lines 80-98): delegate, re-raise as
`RuntimeError`. -/
def mouse_send_wheel (env : Env) (hwnd : Int) (delta x y : Int) :
    PyM (Option Int) :=
  pyTry (send_mouse_wheel env hwnd delta x y)
    (fun _ => pyThrow (PyErr.runtimeError "send wheel failed"))

/-- `MouseInput.send_scroll` (mouse.py lines 190-221): map a direction word to
`delta = (plus or minus) 120 * lines` and delegate to `send_wheel`. -/
def send_scroll (env : Env) (hwnd : Int) (direction : String) (lines x y : Int) :
    PyM (Option Int) :=
  pyTry
    (if pyToLower direction == "up" then mouse_send_wheel env hwnd (120 * lines) x y
     else if pyToLower direction == "down" then mouse_send_wheel env hwnd (-120 * lines) x y
     else if pyToLower direction == "left" then mouse_send_wheel env hwnd (120 * lines) x y
     else if pyToLower direction == "right" then mouse_send_wheel env hwnd (-120 * lines) x y
     else pyThrow (PyErr.valueError "unknown scroll direction"))
    (fun _ => pyThrow (PyErr.runtimeError "send scroll failed"))

/-! ## Keyboard controller (src/utils/input/keyboard.py) -/

/-- `KeyboardInput.send_press_and_hold` (keyboard.py lines 188-208):
`send_key_down`, `time.sleep(duration)`, `send_key_up`, return True; any
exception is re-raised as `RuntimeError`. -/
def send_press_and_hold (env : Env) (hwnd : Int) (key : String) (duration : Int) :
    PyM Bool :=
  pyTry
    (pyBind (send_key_down env hwnd (KeyArg.name key)) (fun _ =>
      pyBind (timeSleep duration) (fun _ =>
        pyBind (send_key_up env hwnd (KeyArg.name key)) (fun _ =>
          pyPure true))))
    (fun _ => pyThrow (PyErr.runtimeError "send press and hold failed"))

/-- `KeyboardInput.validate_key` (lines 300-314): True iff `get_virtual_key`
does not raise. -/
def validate_key (key : String) : Bool :=
  match get_virtual_key key with
  | Except.ok _ => true
  | Except.error _ => false

/-- Loop body of `press_modifiers_precisely` (lines 522-541): for each
modifier, `key_down_press` then `time.sleep(0.01)`; a False result (which a
completed send never produces) would end the loop with False. -/
def press_modifiers_loop (env : Env) (hwnd : Int) : List String → PyM Bool
  | [] => pyPure true
  | m :: rest =>
    pyBind (key_down_press env hwnd (KeyArg.name m)) (fun ok =>
      if ok = false then pyPure false
      else
        pyBind (timeSleep 1) (fun _ =>
          press_modifiers_loop env hwnd rest))

/-- `KeyboardInput.press_modifiers_precisely` (lines 522-541). -/
def press_modifiers_precisely (env : Env) (hwnd : Int) (modifiers : List String) :
    PyM Bool :=
  pyTry (press_modifiers_loop env hwnd modifiers)
    (fun _ => pyThrow (PyErr.runtimeError "press modifiers failed"))

/-- Loop body of `release_modifiers_precisely` (lines 543-563): called on the
reversed modifier list; `key_down_release` then `time.sleep(0.01)` each. -/
def release_modifiers_loop (env : Env) (hwnd : Int) : List String → PyM Bool
  | [] => pyPure true
  | m :: rest =>
    pyBind (key_down_release env hwnd (KeyArg.name m)) (fun ok =>
      if ok = false then pyPure false
      else
        pyBind (timeSleep 1) (fun _ =>
          release_modifiers_loop env hwnd rest))

/-- `KeyboardInput.release_modifiers_precisely` (lines 543-563): iterates
`reversed(modifiers)`. -/
def release_modifiers_precisely (env : Env) (hwnd : Int) (modifiers : List String) :
    PyM Bool :=
  pyTry (release_modifiers_loop env hwnd modifiers.reverse)
    (fun _ => pyThrow (PyErr.runtimeError "release modifiers failed"))

/-- `KeyboardInput.send_chord_key` (lines 565-602): press the modifiers, sleep,
press and release the main key (with the release-on-False cleanup branches),
sleep, release the modifiers in reverse order; any exception raised inside is
re-raised as `RuntimeError`, bypassing the cleanup branches. -/
def send_chord_key (env : Env) (hwnd : Int) (modifiers : List String)
    (main_key : String) : PyM Bool :=
  pyTry
    (pyBind (press_modifiers_precisely env hwnd modifiers) (fun ok1 =>
      if ok1 = false then pyPure false
      else
        pyBind (timeSleep 1) (fun _ =>
          pyBind (key_down_press env hwnd (KeyArg.name main_key)) (fun ok2 =>
            if ok2 = false then
              pyBind (release_modifiers_precisely env hwnd modifiers) (fun _ =>
                pyPure false)
            else
              pyBind (timeSleep 1) (fun _ =>
                pyBind (key_down_release env hwnd (KeyArg.name main_key)) (fun ok3 =>
                  if ok3 = false then
                    pyBind (release_modifiers_precisely env hwnd modifiers) (fun _ =>
                      pyPure false)
                  else
                    pyBind (timeSleep 1) (fun _ =>
                      release_modifiers_precisely env hwnd modifiers)))))))
    (fun _ => pyThrow (PyErr.runtimeError "send chord key failed"))

/-- The hard-coded combination list of `send_key` (keyboard.py line 91). -/
def COMBO_KEYS : List String :=
  ["ctrl+c", "ctrl+v", "ctrl+x", "ctrl+z", "ctrl+a", "ctrl+s", "ctrl+o", "ctrl+n"]

/-- Modifier normalization in `_send_key_combination` (lines 43-52):
unrecognized prefixes are silently dropped. -/
def normalize_modifier (p : String) : Option String :=
  let q := pyTrim (pyToLower p)
  if q == "ctrl" || q == "control" then some "ctrl"
  else if q == "shift" then some "shift"
  else if q == "alt" then some "alt"
  else if q == "win" || q == "windows" then some "win"
  else none

/-- Modifier press loop of `_send_key_combination` (lines 55-57):
`send_key_down` then `time.sleep(0.01)` for each. -/
def combo_mods_down (env : Env) (hwnd : Int) : List String → PyM Unit
  | [] => pyPure ()
  | m :: rest =>
    pyBind (send_key_down env hwnd (KeyArg.name m)) (fun _ =>
      pyBind (timeSleep 1) (fun _ =>
        combo_mods_down env hwnd rest))

/-- Modifier release loop of `_send_key_combination` (lines 65-66): called on
the reversed list, no sleeps. -/
def combo_mods_up (env : Env) (hwnd : Int) : List String → PyM Unit
  | [] => pyPure ()
  | m :: rest =>
    pyBind (send_key_up env hwnd (KeyArg.name m)) (fun _ =>
      combo_mods_up env hwnd rest)

/-- The plain-key loop of `send_key` (lines 96-102): `repeat` times down /
sleep / up, with an extra inter-press sleep except after the last press. -/
def send_key_simple (env : Env) (hwnd : Int) (key : String) (delay : Int) :
    Nat → PyM Bool
  | 0 => pyPure true
  | n + 1 =>
    pyBind (send_key_down env hwnd (KeyArg.name key)) (fun _ =>
      pyBind (timeSleep delay) (fun _ =>
        pyBind (send_key_up env hwnd (KeyArg.name key)) (fun _ =>
          match n with
          | 0 => pyPure true
          | m + 1 =>
            pyBind (timeSleep delay) (fun _ =>
              send_key_simple env hwnd key delay (m + 1)))))

/-- `KeyboardInput._send_key_combination` (lines 33-74).  When the name splits
into several parts it presses the recognized modifiers, presses and releases
the last part, and releases the modifiers in reverse order.  A name without a
plus sign falls through to `send_key(hwnd, key, 1, press_duration)`, which
(having no plus sign) provably takes the plain branch, embedded here directly
as one `send_key_simple` press. -/
def send_key_combination (env : Env) (hwnd : Int) (key : String)
    (press_duration : Int) : PyM Bool :=
  pyTry
    (let parts := pySplitPlus key
     if parts.length > 1 then
       let modifiers := parts.dropLast.filterMap normalize_modifier
       let main_key := parts.getLastD ""
       pyBind (combo_mods_down env hwnd modifiers) (fun _ =>
         pyBind (send_key_down env hwnd (KeyArg.name main_key)) (fun _ =>
           pyBind (timeSleep press_duration) (fun _ =>
             pyBind (send_key_up env hwnd (KeyArg.name main_key)) (fun _ =>
               pyBind (combo_mods_up env hwnd modifiers.reverse) (fun _ =>
                 pyPure true)))))
     else send_key_simple env hwnd key press_duration 1)
    (fun _ => pyThrow (PyErr.runtimeError "send key combination failed"))

/-- `KeyboardInput.send_key` (lines 76-107).  The combination test does not
depend on the loop index, so a combination key dispatches immediately and a
plain key runs the simple loop; `repeat = 0` returns True without sending. -/
def send_key (env : Env) (hwnd : Int) (key : String) (repeatN : Nat)
    (delay : Int) : PyM Bool :=
  pyTry
    (if repeatN = 0 then pyPure true
     else if COMBO_KEYS.contains (pyToLower key) || pyContainsChar (Char.ofNat 43) key then
       send_key_combination env hwnd key delay
     else send_key_simple env hwnd key delay repeatN)
    (fun _ => pyThrow (PyErr.runtimeError "send key failed"))

/-- `WindowMessage.is_key_pressed` (window_message.py lines 571-593): resolve
the key and sample `GetAsyncKeyState`; its own except-clause turns any failure
(unknown key included) into False. -/
def wm_is_key_pressed (env : Env) (key : KeyArg) : Bool :=
  match resolveKey key with
  | Except.ok vk => env.asyncKeyState vk
  | Except.error _ => false

/-- Number of iterations of the `wait_for_key_release` polling loop
(window_message.py lines 617-620): one poll per 0.01 s until `timeout`. -/
def pollBudget (timeout : Int) : Nat := timeout.toNat

/-- The polling loop of `WindowMessage.wait_for_key_release`: return True as
soon as the key is up, sleep 0.01 s between polls, False on timeout. -/
def wm_wait_release_loop (env : Env) (vk : Nat) : Nat → Nat → PyM Bool
  | 0, _ => pyPure false
  | fuel + 1, i =>
    if env.keyStateAt i vk = false then pyPure true
    else
      pyBind (timeSleep 1) (fun _ =>
        wm_wait_release_loop env vk fuel (i + 1))

/-- `WindowMessage.wait_for_key_release` (lines 595-625): resolve the key and
poll; any exception (an unknown key name) is re-raised as `RuntimeError`. -/
def wm_wait_for_key_release (env : Env) (key : KeyArg) (timeout : Int) :
    PyM Bool :=
  pyTry
    (pyBind (liftExc (resolveKey key)) (fun vk =>
      wm_wait_release_loop env vk (pollBudget timeout) 0))
    (fun _ => pyThrow (PyErr.runtimeError "wait for key release failed"))

/-! ## Input Facade and Shared Process State
(src/utils/input/input_manager.py, src/utils/global_manager.py) -/

/-- The fields of `WindowInfo` (global_manager.py lines 37-48) that the Input
Facade reads; every `WindowInfo` instance has a `handle` attribute and is
truthy as a Python object. -/
structure WindowInfo where
  title : String
  handle : Int
deriving DecidableEq

/-- The state relevant to target-window resolution: the value stored under
the `target_window` key of the Shared Process State, and the
`InputManager._target_window` instance attribute (input_manager.py line 31),
initialised from the store in `__init__` and thereafter updated only by the
`_on_target_window_change` listener. -/
structure IMState where
  store : Option WindowInfo
  cache : Option WindowInfo
deriving DecidableEq

/-- `set_global('target_window', v, notify)` (global_manager.py lines
185-206) combined with the registered listener
`InputManager._on_target_window_change` (input_manager.py lines 53-59):
the store always takes the new value; the listener — and hence the facade's
cached copy — fires only when `notify` holds and the value changed. -/
def set_global_target_window (s : IMState) (v : Option WindowInfo)
    (notify : Bool) : IMState :=
  if notify && decide (s.store ≠ v) then { store := v, cache := v }
  else { store := v, cache := s.cache }

/-- `InputManager.get_target_window_handle` (input_manager.py lines 61-65):
reads the cached `_target_window` attribute, not the shared store. -/
def get_target_window_handle (s : IMState) : Option Int :=
  match s.cache with
  | some w => some w.handle
  | none => none

/-- Python truthiness of the resolved handle: `if not hwnd:` is taken for
`None` and for a zero handle. -/
def pyFalsyHwnd : Option Int → Bool
  | none => true
  | some n => n == 0

/-- Outcome of one Input Facade operation: the returned value, whether the
facade reported a failure through its except-branch (`log_error` after a
caught exception), and the window messages and sleeps performed. -/
structure FacadeOut (α : Type) where
  ret : α
  errorReported : Bool
  trace : List Event
deriving DecidableEq

/-- `InputManager.press_key` (input_manager.py lines 123-147) with
`use_target_window = True`: resolve the handle from the cached attribute;
with no usable handle the raised `ValueError` is caught, logged and turned
into False; otherwise delegate to `KeyboardInput.send_key`, whose exceptions
are equally caught, logged and turned into False. -/
def im_press_key (s : IMState) (env : Env) (key : String) (repeatN : Nat)
    (delay : Int) : FacadeOut Bool :=
  let hwnd := get_target_window_handle s
  if pyFalsyHwnd hwnd then { ret := false, errorReported := true, trace := [] }
  else
    match hwnd with
    | some h =>
      match runPy (send_key env h key repeatN delay) with
      | (Except.ok b, tr) => { ret := b, errorReported := false, trace := tr }
      | (Except.error _, tr) => { ret := false, errorReported := true, trace := tr }
    | none => { ret := false, errorReported := true, trace := [] }

/-- `InputManager.is_key_pressed` (lines 574-595) with
`use_target_window = True`: with no usable handle it returns False silently
(no exception is raised, nothing is logged); otherwise it samples the
OS-level key state through `KeyboardInput.is_key_pressed`. -/
def im_is_key_pressed (s : IMState) (env : Env) (key : KeyArg) :
    FacadeOut Bool :=
  let hwnd := get_target_window_handle s
  if pyFalsyHwnd hwnd then { ret := false, errorReported := false, trace := [] }
  else { ret := wm_is_key_pressed env key, errorReported := false, trace := [] }

/-- `InputManager.wait_for_key_release` (lines 597-620) with
`use_target_window = True`: with no usable handle it returns False silently;
otherwise it runs the polling loop, catching and logging a raised error. -/
def im_wait_for_key_release (s : IMState) (env : Env) (key : KeyArg)
    (timeout : Int) : FacadeOut Bool :=
  let hwnd := get_target_window_handle s
  if pyFalsyHwnd hwnd then { ret := false, errorReported := false, trace := [] }
  else
    match runPy (wm_wait_for_key_release env key timeout) with
    | (Except.ok b, tr) => { ret := b, errorReported := false, trace := tr }
    | (Except.error _, tr) => { ret := false, errorReported := true, trace := tr }

/-! ## Task orchestration (src/utils/task/task_manager.py) -/

/-- `TaskStatus` (task_manager.py lines 23-27). -/
inductive TaskStatus where
  | stopped
  | running
  | error
deriving DecidableEq

/-- The fields of `TaskInfo` (lines 38-56) that the runner logic consults;
`script_exists` models `os.path.exists(self.script_path)`. -/
structure TaskInfo where
  task_id : String
  name : String
  enabled : Bool
  script_exists : Bool
deriving DecidableEq

/-- `TaskInfo.is_available` (lines 54-56). -/
def TaskInfo.is_available (t : TaskInfo) : Bool := t.enabled && t.script_exists

/-- Outcome of `TaskRunner._load_script` (lines 183-213) as decided by the
script file on disk: the module loads and `create_script(settings)` returns an
instance; the spec/loader is falsy; the module lacks `create_script`; or any
step raises (caught by the except-clause of `_load_script` itself). -/
inductive LoadOutcome where
  | ok
  | specNone
  | noCreateFunc
  | raises
deriving DecidableEq

/-- Environment of one `TaskRunner.start` call: how the script load goes and
whether launching the thread raises (the only exception source left inside
`start`'s own try-block once `_load_script` has returned). -/
structure StartEnv where
  load : LoadOutcome
  threadStartRaises : Bool
deriving DecidableEq

/-- The mutable state of a `TaskRunner` (lines 91-102). -/
structure Runner where
  task_info : TaskInfo
  status : TaskStatus
  script_loaded : Bool
  thread_alive : Bool
  stop_event : Bool
deriving DecidableEq

/-- `TaskRunner.__init__` (lines 91-102). -/
def TaskRunner.init (info : TaskInfo) : Runner :=
  { task_info := info, status := TaskStatus.stopped, script_loaded := false,
    thread_alive := false, stop_event := false }

/-- Status-channel effects: a per-task status write into Shared Process State
(`set_global`), or a Task Manager observer callback. -/
inductive TEvent where
  | globalStatus (task_id : String) (st : String)
  | callback (event_type : String) (task_id : String)
  | log (msg : String)
deriving DecidableEq

/-- `TaskRunner._load_script` (lines 183-213): on success the instance is
stored; every failure mode, the raising ones included, only logs and returns
False, leaving the runner untouched. -/
def TaskRunner.load_script (env : StartEnv) (r : Runner) : Bool × Runner :=
  match env.load with
  | LoadOutcome.ok => (true, { r with script_loaded := true })
  | _ => (false, r)

/-- `TaskRunner.start` (lines 104-150): reject when already running or
unavailable; a failed `_load_script` returns False with the runner unchanged;
otherwise clear the stop flag, set `RUNNING`, start the thread and publish the
running status — an exception from the thread launch is caught by `start`'s
except-clause, which records `ERROR` and returns False. -/
def TaskRunner.start (env : StartEnv) (r : Runner) :
    Bool × Runner × List TEvent :=
  if r.status = TaskStatus.running then (false, r, [])
  else if r.task_info.is_available = false then (false, r, [])
  else
    match TaskRunner.load_script env r with
    | (false, r1) => (false, r1, [])
    | (true, r1) =>
      let r2 := { r1 with stop_event := false, status := TaskStatus.running }
      if env.threadStartRaises then
        (false, { r2 with status := TaskStatus.error }, [])
      else
        (true, { r2 with thread_alive := true },
         [TEvent.globalStatus r.task_info.task_id "running"])

/-- Environment of one `TaskRunner.stop` call: whether the loaded body has a
`stop` attribute and whether that hook raises (swallowed and logged), whether
the call happens on the script's own thread (the self-join guard), and
whether the join sees the thread end within the 5 s bound. -/
structure StopEnv where
  hasStopHook : Bool
  stopHookRaises : Bool
  calledFromScriptThread : Bool
  joinEndsThread : Bool
deriving DecidableEq

/-- `TaskRunner.stop` (lines 152-181): an already-stopped runner returns at
once; otherwise set the cooperative-stop flag, invoke the body's stop hook
(exceptions swallowed and logged), join the thread unless running on it, and
record `STOPPED` unconditionally, publishing the stopped status. -/
def TaskRunner.stop (env : StopEnv) (r : Runner) : Runner × List TEvent :=
  if r.status = TaskStatus.stopped then (r, [])
  else
    let r1 := { r with stop_event := true }
    let hookEvents :=
      if r1.script_loaded && env.hasStopHook && env.stopHookRaises then
        [TEvent.log "stop script raised"]
      else []
    let alive :=
      if r1.thread_alive then
        if env.calledFromScriptThread then true
        else if env.joinEndsThread then false
        else true
      else false
    ({ r1 with thread_alive := alive, status := TaskStatus.stopped },
     hookEvents ++ [TEvent.globalStatus r.task_info.task_id "stopped"])

/-- Association-list lookup, the shape of a Python dict access. -/
def lookupA {α : Type} (l : List (String × α)) (k : String) : Option α :=
  (l.find? (fun p => p.1 == k)).map (fun p => p.2)

/-- Association-list update, the shape of a Python dict assignment. -/
def insertA {α : Type} : List (String × α) → String → α → List (String × α)
  | [], k, v => [(k, v)]
  | p :: rest, k, v =>
    if p.1 == k then (k, v) :: rest else p :: insertA rest k v

/-- The state of a `TaskManager` (lines 237-248): the loaded registry and the
table of active runners. -/
structure Manager where
  tasks : List (String × TaskInfo)
  runners : List (String × Runner)
deriving DecidableEq

/-- `TaskManager.start_task` (lines 339-368): unknown id → False; a registered
runner in `RUNNING` state → False without touching anything; otherwise create
a fresh runner and start it, registering it and firing `task_started` only on
success. -/
def TaskManager.start_task (env : StartEnv) (m : Manager) (task_id : String) :
    Bool × Manager × List TEvent :=
  match lookupA m.tasks task_id with
  | none => (false, m, [])
  | some info =>
    let alreadyRunning :=
      match lookupA m.runners task_id with
      | some r => r.status == TaskStatus.running
      | none => false
    if alreadyRunning then (false, m, [])
    else
      match TaskRunner.start env (TaskRunner.init info) with
      | (true, r1, evs) =>
        (true, { m with runners := insertA m.runners task_id r1 },
         evs ++ [TEvent.callback "task_started" task_id])
      | (false, _, evs) => (false, m, evs)

/-! ## Interleaving model of concurrent `start_task` calls

`TaskManager.start_task` holds no lock: the membership/status check of the
runner table, the creation-and-start of the new runner, and its registration
are separate program points between which another thread may run.  The model
splits one `start_task(id)` call into those three atomic phases — a
granularity coarser than the Python bytecode, so every behaviour exhibited
here is a behaviour of the source. -/

/-- Program counter of one thread inside `start_task`. -/
inductive StartPhase where
  | atCheck
  | atStart
  | atRegister
  | done
deriving DecidableEq

/-- One thread executing `start_task`: its phase, its locally created runner
(present once `TaskRunner.start` succeeded — the runner's thread is live from
that moment, registered or not), and its eventual return value. -/
structure ThreadSt where
  phase : StartPhase
  runner : Option Runner
  result : Option Bool
deriving DecidableEq

def ThreadSt.init : ThreadSt :=
  { phase := StartPhase.atCheck, runner := none, result := none }

/-- One atomic phase of `start_task(task_id)` executed by a thread against the
shared manager state. -/
def threadStep (env : StartEnv) (task_id : String) (m : Manager)
    (t : ThreadSt) : Manager × ThreadSt :=
  match t.phase with
  | StartPhase.atCheck =>
    (match lookupA m.tasks task_id with
     | none => (m, { t with phase := StartPhase.done, result := some false })
     | some _ =>
       let alreadyRunning :=
         match lookupA m.runners task_id with
         | some r => r.status == TaskStatus.running
         | none => false
       if alreadyRunning then
         (m, { t with phase := StartPhase.done, result := some false })
       else (m, { t with phase := StartPhase.atStart }))
  | StartPhase.atStart =>
    (match lookupA m.tasks task_id with
     | some info =>
       (match TaskRunner.start env (TaskRunner.init info) with
        | (true, r1, _) => (m, { t with phase := StartPhase.atRegister, runner := some r1 })
        | (false, _, _) => (m, { t with phase := StartPhase.done, result := some false }))
     | none => (m, { t with phase := StartPhase.done, result := some false }))
  | StartPhase.atRegister =>
    (match t.runner with
     | some r1 =>
       ({ m with runners := insertA m.runners task_id r1 },
        { t with phase := StartPhase.done, result := some true })
     | none => (m, { t with phase := StartPhase.done, result := some false }))
  | StartPhase.done => (m, t)

/-- Two threads, A and B, each running `start_task` for the same id against
the shared manager. -/
structure Sys where
  mgr : Manager
  tA : ThreadSt
  tB : ThreadSt
deriving DecidableEq

/-- Schedule step: `true` runs thread A, `false` runs thread B. -/
def sysStep (env : StartEnv) (task_id : String) (s : Sys) (who : Bool) : Sys :=
  if who then
    let (m1, t1) := threadStep env task_id s.mgr s.tA
    { s with mgr := m1, tA := t1 }
  else
    let (m1, t1) := threadStep env task_id s.mgr s.tB
    { s with mgr := m1, tB := t1 }

/-- Run a schedule (a list of thread choices) from a system state. -/
def runSched (env : StartEnv) (task_id : String) : List Bool → Sys → Sys
  | [], s => s
  | w :: ws, s => runSched env task_id ws (sysStep env task_id s w)

/-- A thread holds a live runner for `task_id` when the runner it created and
started is in `RUNNING` state with its execution thread alive. -/
def ThreadSt.holdsLiveRunner (t : ThreadSt) (task_id : String) : Bool :=
  match t.runner with
  | some r =>
    r.status == TaskStatus.running && r.thread_alive && r.task_info.task_id == task_id
  | none => false

/-- Number of live runners for `task_id` held by the two threads. -/
def liveRunnersFor (s : Sys) (task_id : String) : Nat :=
  (if s.tA.holdsLiveRunner task_id then 1 else 0) +
  (if s.tB.holdsLiveRunner task_id then 1 else 0)

/-- A registry with the single enabled, loadable task `t1`, no active
runners, and both threads about to call `start_task "t1"`. -/
def raceInfo : TaskInfo :=
  { task_id := "t1", name := "Task One", enabled := true, script_exists := true }

def raceSys0 : Sys :=
  { mgr := { tasks := [("t1", raceInfo)], runners := [] },
    tA := ThreadSt.init, tB := ThreadSt.init }

/-- A start environment in which the script loads fine and the thread launch
succeeds. -/
def envOk : StartEnv := { load := LoadOutcome.ok, threadStartRaises := false }

/-! ## Concrete environments used by witnesses and counterexamples -/

/-- A Win32 layer where every handle is a valid window, every delivered
message yields `LRESULT 0`, and no key is pressed. -/
def envAll : Env :=
  { validWin := fun _ => true, sendResult := fun _ _ _ _ => 0,
    asyncKeyState := fun _ => false, keyStateAt := fun _ _ => false }

/-! ## Basic lemmas about the embedded primitives -/

theorem send_message_ok (env : Env) (hwnd : Int) (msg : Nat) (w l : Int)
    (hw : env.validWin hwnd = true) (t : List Event) :
    send_message env hwnd msg w l t =
      (Except.ok (some (env.sendResult hwnd msg w l)),
       t ++ [Event.sent hwnd msg w l]) := by
  simp [send_message, hw, pyBind, emit, pyPure]

theorem pyResultOk_some (r : Int) : pyResultOk (some r) = true := by
  simp [pyResultOk]

theorem timeSleep_nonneg (d : Int) (hd : 0 ≤ d) (t : List Event) :
    timeSleep d t = (Except.ok (), t ++ [Event.slept d]) := by
  simp [timeSleep, not_lt.mpr hd, emit]

theorem timeSleep_neg (d : Int) (hd : d < 0) (t : List Event) :
    timeSleep d t =
      (Except.error (PyErr.valueError "sleep length must be non-negative"), t) := by
  simp [timeSleep, hd, pyThrow]

theorem key_down_press_ok (env : Env) (hwnd : Int) (key : KeyArg) (vk : Nat)
    (hres : resolveKey key = Except.ok vk) (hw : env.validWin hwnd = true)
    (t : List Event) :
    key_down_press env hwnd key t =
      (Except.ok true, t ++ [Event.sent hwnd WM_KEYDOWN (Int.ofNat vk) 1]) := by
  unfold key_down_press pyTry
  simp only [pyBind, liftExc, hres, pyPure]
  rw [send_message_ok env hwnd WM_KEYDOWN (Int.ofNat vk) 1 hw t]
  simp [pyResultOk]

theorem key_down_press_unknown (env : Env) (hwnd : Int) (key : KeyArg)
    (e : PyErr) (hres : resolveKey key = Except.error e) (t : List Event) :
    key_down_press env hwnd key t =
      (Except.error (PyErr.runtimeError "key down press failed"), t) := by
  simp [key_down_press, pyTry, pyBind, liftExc, hres, pyThrow]

theorem key_down_release_ok (env : Env) (hwnd : Int) (key : KeyArg) (vk : Nat)
    (hres : resolveKey key = Except.ok vk) (hw : env.validWin hwnd = true)
    (t : List Event) :
    key_down_release env hwnd key t =
      (Except.ok true, t ++ [Event.sent hwnd WM_KEYUP (Int.ofNat vk) 1]) := by
  unfold key_down_release pyTry
  simp only [pyBind, liftExc, hres, pyPure]
  rw [send_message_ok env hwnd WM_KEYUP (Int.ofNat vk) 1 hw t]
  simp [pyResultOk]

theorem key_down_release_unknown (env : Env) (hwnd : Int) (key : KeyArg)
    (e : PyErr) (hres : resolveKey key = Except.error e) (t : List Event) :
    key_down_release env hwnd key t =
      (Except.error (PyErr.runtimeError "key down release failed"), t) := by
  simp [key_down_release, pyTry, pyBind, liftExc, hres, pyThrow]

theorem send_key_down_ok (env : Env) (hwnd : Int) (key : KeyArg) (vk : Nat)
    (hres : resolveKey key = Except.ok vk) (hw : env.validWin hwnd = true)
    (t : List Event) :
    send_key_down env hwnd key t =
      (Except.ok (some (env.sendResult hwnd WM_KEYDOWN (Int.ofNat vk) 0)),
       t ++ [Event.sent hwnd WM_KEYDOWN (Int.ofNat vk) 0]) := by
  unfold send_key_down
  simp only [pyBind, liftExc, hres, pyPure]
  rw [send_message_ok env hwnd WM_KEYDOWN (Int.ofNat vk) 0 hw t]

theorem send_key_down_unknown (env : Env) (hwnd : Int) (key : KeyArg)
    (e : PyErr) (hres : resolveKey key = Except.error e) (t : List Event) :
    send_key_down env hwnd key t = (Except.error e, t) := by
  simp [send_key_down, pyBind, liftExc, hres, pyThrow]

theorem send_key_up_ok (env : Env) (hwnd : Int) (key : KeyArg) (vk : Nat)
    (hres : resolveKey key = Except.ok vk) (hw : env.validWin hwnd = true)
    (t : List Event) :
    send_key_up env hwnd key t =
      (Except.ok (some (env.sendResult hwnd WM_KEYUP (Int.ofNat vk) 1)),
       t ++ [Event.sent hwnd WM_KEYUP (Int.ofNat vk) 1]) := by
  unfold send_key_up
  simp only [pyBind, liftExc, hres, pyPure]
  rw [send_message_ok env hwnd WM_KEYUP (Int.ofNat vk) 1 hw t]

theorem send_key_up_unknown (env : Env) (hwnd : Int) (key : KeyArg)
    (e : PyErr) (hres : resolveKey key = Except.error e) (t : List Event) :
    send_key_up env hwnd key t = (Except.error e, t) := by
  simp [send_key_up, pyBind, liftExc, hres, pyThrow]

theorem validate_key_false_resolve (k : String) (h : validate_key k = false) :
    get_virtual_key k = Except.error (PyErr.valueError "unknown key") := by
  unfold validate_key at h
  unfold get_virtual_key at h ⊢
  cases hvk : lookupVK (pyToLower k) with
  | some code => simp [hvk] at h
  | none =>
    simp only [hvk] at h ⊢
    by_cases hl : (pyToLower k).length = 1
    · simp [hl] at h
    · simp [hl]

/-! ## Claim C10 -/

/-- C10: for every integer delta, `send_mouse_wheel` computes the
WM_MOUSEWHEEL wparam as `(delta << 16) & 0xFFFF`, which equals 0 for every
delta, so the wheel message is always delivered with a zero wparam — the
wheel-delta field never carries the requested delta. -/
theorem c10_wheel_wparam_zero :
    (∀ delta : Int, wheelWParam delta = 0) ∧
    (∀ (env : Env) (hwnd delta x y : Int), env.validWin hwnd = true →
      runPy (send_mouse_wheel env hwnd delta x y) =
        (Except.ok (some (env.sendResult hwnd WM_MOUSEWHEEL 0 (mouseLParam x y))),
         [Event.sent hwnd WM_MOUSEWHEEL 0 (mouseLParam x y)])) := by
  have hz : ∀ delta : Int, wheelWParam delta = 0 := by
    intro delta
    simp [wheelWParam, andFFFF, Int.mul_emod_right]
  refine ⟨hz, ?_⟩
  intro env hwnd delta x y hw
  unfold runPy send_mouse_wheel
  rw [hz delta, send_message_ok env hwnd WM_MOUSEWHEEL 0 (mouseLParam x y) hw []]
  simp

/-- C10 witness: a concrete scroll-down delta of -360 is delivered as
wparam 0. -/
theorem c10_witness :
    runPy (send_mouse_wheel envAll 1 (-360) 5 9) =
      (Except.ok (some (envAll.sendResult 1 WM_MOUSEWHEEL 0 (mouseLParam 5 9))),
       [Event.sent 1 WM_MOUSEWHEEL 0 (mouseLParam 5 9)]) :=
  c10_wheel_wparam_zero.2 envAll 1 (-360) 5 9 (by decide)

/-! ## Claim C1 -/

/-- C1: the claim states that the runner-table check and the registration in
`TaskManager.start_task` are protected by a lock, making them atomic under
concurrent `start_task` calls for the same id, so that at most one live
runner per id ever exists.  The source holds no lock: splitting the call into
its check / create-and-start / register phases, the schedule in which both
threads pass the check before either starts a runner leaves *two* live
runners for the id, while the fully sequential schedule leaves one (the
second caller is refused).  This evaluates the code at the failing
interleaving. -/
theorem c1_race_two_live_runners :
    liveRunnersFor (runSched envOk "t1" [true, false, true, false] raceSys0) "t1" = 2 ∧
    liveRunnersFor (runSched envOk "t1" [true, true, true, false] raceSys0) "t1" = 1 ∧
    (runSched envOk "t1" [true, true, true, false] raceSys0).tB.result = some false := by
  refine ⟨by decide, by decide, by decide⟩

/-! ## Claim C2 -/

/-- C2: the claim says an exception raised during script load or body
instantiation is mapped to the `Error` state.  It is not: `_load_script`
catches the exception itself and returns False, so `start()` returns False
with the runner state still `Stopped` — the `except`-clause of `start` that
would set `ERROR` is never reached.  Evaluated on an available task whose
load raises. -/
theorem c2_counterexample :
    (TaskRunner.start { load := LoadOutcome.raises, threadStartRaises := false }
        (TaskRunner.init raceInfo)).1 = false ∧
    (TaskRunner.start { load := LoadOutcome.raises, threadStartRaises := false }
        (TaskRunner.init raceInfo)).2.1.status = TaskStatus.stopped ∧
    (TaskRunner.start { load := LoadOutcome.raises, threadStartRaises := false }
        (TaskRunner.init raceInfo)).2.1.status ≠ TaskStatus.error := by
  refine ⟨by decide, by decide, by decide⟩

/-- C2 (amended): every `TaskRunner.start` whose script load or body
instantiation fails — the raising case included — returns False with the
runner left completely unchanged: the state stays `Stopped` (never `Running`,
and not `Error`), because `_load_script` swallows the exception and returns
False before `start`'s own except-clause can run. -/
theorem c2_load_failure_leaves_runner_unchanged :
    ∀ (env : StartEnv) (r : Runner), env.load ≠ LoadOutcome.ok →
      TaskRunner.start env r = (false, r, []) := by
  intro env r hload
  unfold TaskRunner.start TaskRunner.load_script
  cases henv : env.load with
  | ok => exact absurd henv hload
  | specNone => simp
  | noCreateFunc => simp
  | raises => simp

/-- C2 witness: the amended theorem applied to the concrete raising load. -/
theorem c2_witness :
    TaskRunner.start { load := LoadOutcome.raises, threadStartRaises := false }
        (TaskRunner.init raceInfo) = (false, TaskRunner.init raceInfo, []) :=
  c2_load_failure_leaves_runner_unchanged
    { load := LoadOutcome.raises, threadStartRaises := false }
    (TaskRunner.init raceInfo) (by decide)

/-! ## Claim C4 -/

/-- C4: `TaskRunner.stop` is idempotent — after a first `stop` under any
environment the runner state is `Stopped`, and a second `stop` under any
environment returns the runner unchanged and performs nothing (no status
write, no hook call); the stop-hook environment flags, a raising hook
included, never make `stop` itself fail. -/
theorem c4_stop_idempotent :
    ∀ (env1 env2 : StopEnv) (r : Runner),
      (TaskRunner.stop env1 r).1.status = TaskStatus.stopped ∧
      TaskRunner.stop env2 (TaskRunner.stop env1 r).1 =
        ((TaskRunner.stop env1 r).1, []) := by
  have stop_on_stopped : ∀ (env : StopEnv) (s : Runner),
      s.status = TaskStatus.stopped → TaskRunner.stop env s = (s, []) := by
    intro env s hs
    unfold TaskRunner.stop
    rw [if_pos hs]
  intro env1 env2 r
  by_cases h : r.status = TaskStatus.stopped
  · have h0 := stop_on_stopped env1 r h
    rw [h0]
    exact ⟨h, stop_on_stopped env2 r h⟩
  · have h1 : (TaskRunner.stop env1 r).1.status = TaskStatus.stopped := by
      simp [TaskRunner.stop, h]
    exact ⟨h1, stop_on_stopped env2 (TaskRunner.stop env1 r).1 h1⟩

/-! ## Claim C3 -/

theorem lookupA_insertA {α : Type} (l : List (String × α)) (k : String) (v : α) :
    lookupA (insertA l k v) k = some v := by
  induction l with
  | nil => simp [insertA, lookupA]
  | cons p rest ih =>
    by_cases h : p.1 == k
    · simp [insertA, h, lookupA]
    · simp only [insertA, h, if_false, Bool.false_eq_true]
      simpa [lookupA, List.find?, h] using ih

theorem taskRunner_start_success (env : StartEnv) (r : Runner)
    (h : (TaskRunner.start env r).1 = true) :
    (TaskRunner.start env r).2.1.status = TaskStatus.running ∧
    (TaskRunner.start env r).2.1.thread_alive = true := by
  by_cases h1 : r.status = TaskStatus.running
  · exfalso
    unfold TaskRunner.start at h
    rw [if_pos h1] at h
    simp at h
  · by_cases h2 : r.task_info.is_available = false
    · exfalso
      unfold TaskRunner.start at h
      rw [if_neg h1, if_pos h2] at h
      simp at h
    · cases hload : TaskRunner.load_script env r with
      | mk ok r1 =>
        unfold TaskRunner.start at h ⊢
        rw [if_neg h1, if_neg h2, hload] at h ⊢
        cases ok with
        | false => simp at h
        | true =>
          by_cases h3 : env.threadStartRaises = true
          · simp [h3] at h
          · simp [h3]

/-- C3: a `start_task` call for an id whose registered runner is `Running`
returns False and changes nothing — no runner is created or registered and no
event fires; and whenever `start_task` returns True, a runner in `Running`
state with a live thread is registered in the active table under that id and
a `task_started` event is fired. -/
theorem c3_start_task_contract :
    (∀ (env : StartEnv) (m : Manager) (task_id : String) (r : Runner),
      lookupA m.runners task_id = some r → r.status = TaskStatus.running →
      TaskManager.start_task env m task_id = (false, m, [])) ∧
    (∀ (env : StartEnv) (m : Manager) (task_id : String),
      (TaskManager.start_task env m task_id).1 = true →
      (∃ r1, lookupA (TaskManager.start_task env m task_id).2.1.runners task_id = some r1 ∧
        r1.status = TaskStatus.running ∧ r1.thread_alive = true) ∧
      TEvent.callback "task_started" task_id ∈
        (TaskManager.start_task env m task_id).2.2) := by
  constructor
  · intro env m task_id r hr hrun
    unfold TaskManager.start_task
    cases ht : lookupA m.tasks task_id with
    | none => rfl
    | some info => simp [hr, hrun]
  · intro env m task_id h
    cases ht : lookupA m.tasks task_id with
    | none =>
      exfalso
      unfold TaskManager.start_task at h
      rw [ht] at h
      simp at h
    | some info =>
      cases hst : TaskRunner.start env (TaskRunner.init info) with
      | mk succ rest =>
        unfold TaskManager.start_task at h ⊢
        rw [ht] at h ⊢
        by_cases halready :
            (match lookupA m.runners task_id with
             | some r => r.status == TaskStatus.running
             | none => false) = true
        · exfalso
          simp only [halready, if_true] at h
          simp at h
        · simp only [halready, if_false, Bool.false_eq_true] at h ⊢
          rw [hst] at h ⊢
          cases succ with
          | false => simp at h
          | true =>
            have hs := taskRunner_start_success env (TaskRunner.init info)
              (by rw [hst])
            rw [hst] at hs
            refine ⟨⟨rest.1, ?_, hs.1, hs.2⟩, ?_⟩
            · simpa using lookupA_insertA m.runners task_id rest.1
            · simp

/-- C3 witness: the refusal branch on a manager whose `t1` runner is running,
and the success branch on a manager with an empty active table, both at the
concrete registry `[("t1", raceInfo)]`. -/
theorem c3_witness :
    (TaskManager.start_task envOk
      { tasks := [("t1", raceInfo)],
        runners := [("t1", (TaskRunner.start envOk (TaskRunner.init raceInfo)).2.1)] }
      "t1" =
      (false,
       { tasks := [("t1", raceInfo)],
         runners := [("t1", (TaskRunner.start envOk (TaskRunner.init raceInfo)).2.1)] },
       [])) ∧
    ((∃ r1, lookupA (TaskManager.start_task envOk
        { tasks := [("t1", raceInfo)], runners := [] } "t1").2.1.runners "t1" = some r1 ∧
        r1.status = TaskStatus.running ∧ r1.thread_alive = true) ∧
      TEvent.callback "task_started" "t1" ∈
        (TaskManager.start_task envOk
          { tasks := [("t1", raceInfo)], runners := [] } "t1").2.2) := by
  constructor
  · exact c3_start_task_contract.1 envOk _ "t1"
      (TaskRunner.start envOk (TaskRunner.init raceInfo)).2.1 (by decide) (by decide)
  · exact c3_start_task_contract.2 envOk
      { tasks := [("t1", raceInfo)], runners := [] } "t1" (by decide)

/-! ## Claim C5 -/

/-- C5: the claim says the facade resolves the handle from Shared Process
State at call time and never caches it across calls, so the handle used
always equals the value currently stored.  The source caches the target
window in `_target_window` and relies on a change-notification listener:
after a notifying write of window 1 followed by a non-notifying write
(`notify=False`) of window 2, the shared state stores window 2 but
`get_target_window_handle` still answers 1. -/
theorem c5_counterexample :
    get_target_window_handle
        (set_global_target_window
          (set_global_target_window { store := none, cache := none }
            (some { title := "w1", handle := 1 }) true)
          (some { title := "w2", handle := 2 }) false) = some 1 ∧
    (set_global_target_window
        (set_global_target_window { store := none, cache := none }
          (some { title := "w1", handle := 1 }) true)
        (some { title := "w2", handle := 2 }) false).store =
      some { title := "w2", handle := 2 } := by
  refine ⟨by decide, by decide⟩

/-- C5 (amended): the facade does not re-read Shared Process State on each
call; it keeps the target window in a cached attribute updated by the
synchronous change-notification listener.  A notifying write is honored by
the next call whenever the cache was in sync with the store (the state
established at construction and preserved by notifying writes), but a
non-notifying write updates the store and never the cache, so the facade
then resolves a handle different from the one currently stored. -/
theorem c5_cache_follows_notifications :
    (∀ (s : IMState) (v : Option WindowInfo), s.cache = s.store →
      (set_global_target_window s v true).store = v ∧
      (set_global_target_window s v true).cache = v ∧
      get_target_window_handle (set_global_target_window s v true) =
        (match v with
         | some w => some w.handle
         | none => none)) ∧
    (∀ (s : IMState) (v : Option WindowInfo),
      (set_global_target_window s v false).store = v ∧
      (set_global_target_window s v false).cache = s.cache) := by
  constructor
  · intro s v hsync
    by_cases hch : s.store = v
    · have hc : (set_global_target_window s v true).cache = v := by
        simp [set_global_target_window, hch, hsync]
      refine ⟨by unfold set_global_target_window; split <;> rfl, hc, ?_⟩
      rw [get_target_window_handle, hc]
    · have hc : (set_global_target_window s v true).cache = v := by
        simp [set_global_target_window, hch]
      refine ⟨by unfold set_global_target_window; split <;> rfl, hc, ?_⟩
      rw [get_target_window_handle, hc]
  · intro s v
    constructor
    · simp [set_global_target_window]
    · simp [set_global_target_window]

/-- C5 witness: a notifying swap from no target to window 7 is honored by
the next handle resolution. -/
theorem c5_witness :
    (set_global_target_window { store := none, cache := none }
        (some { title := "w7", handle := 7 }) true).store =
      some { title := "w7", handle := 7 } ∧
    (set_global_target_window { store := none, cache := none }
        (some { title := "w7", handle := 7 }) true).cache =
      some { title := "w7", handle := 7 } ∧
    get_target_window_handle
      (set_global_target_window { store := none, cache := none }
        (some { title := "w7", handle := 7 }) true) = some 7 :=
  c5_cache_follows_notifications.1 { store := none, cache := none }
    (some { title := "w7", handle := 7 }) (by decide)

/-! ## Claim C6 -/

/-- C6: the claim says every facade operation invoked with no resolved
target fails with a reported no-target failure, explicitly including the
state queries `is_key_pressed` and `wait_for_key_release`.  Those two return
False silently — no exception is raised and nothing is logged — as this
evaluation at an empty target state shows (`errorReported = false`), while
`press_key` does report. -/
theorem c6_counterexample :
    im_is_key_pressed { store := none, cache := none } envAll (KeyArg.name "a") =
      { ret := false, errorReported := false, trace := [] } ∧
    im_wait_for_key_release { store := none, cache := none } envAll
        (KeyArg.name "a") 500 =
      { ret := false, errorReported := false, trace := [] } ∧
    im_press_key { store := none, cache := none } envAll "a" 1 1 =
      { ret := false, errorReported := true, trace := [] } := by
  refine ⟨by decide, by decide, by decide⟩

/-- C6 (amended): with no usable target handle (none stored, or a zero
handle), the message-sending operations — `press_key` representative — raise
the no-target `ValueError`, which the facade catches, logs and converts to
False (a reported failure), and no window message is sent; the state queries
`is_key_pressed` and `wait_for_key_release`, however, return False silently,
also sending nothing. -/
theorem c6_no_target_behavior :
    ∀ (s : IMState) (env : Env) (key : String) (karg : KeyArg)
      (repeatN : Nat) (delay timeout : Int),
      pyFalsyHwnd (get_target_window_handle s) = true →
      im_press_key s env key repeatN delay =
        { ret := false, errorReported := true, trace := [] } ∧
      im_is_key_pressed s env karg =
        { ret := false, errorReported := false, trace := [] } ∧
      im_wait_for_key_release s env karg timeout =
        { ret := false, errorReported := false, trace := [] } := by
  intro s env key karg repeatN delay timeout h
  refine ⟨?_, ?_, ?_⟩
  · unfold im_press_key
    rw [if_pos h]
  · unfold im_is_key_pressed
    rw [if_pos h]
  · unfold im_wait_for_key_release
    rw [if_pos h]

/-- C6 witness: the amended theorem at the empty target state with a dead
(zero) stored handle, covering the `if not hwnd` truthiness guard. -/
theorem c6_witness :
    im_press_key { store := none, cache := some { title := "dead", handle := 0 } }
        envAll "a" 1 1 = { ret := false, errorReported := true, trace := [] } ∧
    im_is_key_pressed { store := none, cache := some { title := "dead", handle := 0 } }
        envAll (KeyArg.name "a") =
      { ret := false, errorReported := false, trace := [] } ∧
    im_wait_for_key_release { store := none, cache := some { title := "dead", handle := 0 } }
        envAll (KeyArg.name "a") 500 =
      { ret := false, errorReported := false, trace := [] } :=
  c6_no_target_behavior { store := none, cache := some { title := "dead", handle := 0 } }
    envAll "a" (KeyArg.name "a") 1 1 500 (by decide)

/-! ## Composition lemmas for the embedded monad -/

theorem pyBind_ok {α β : Type} (x : PyM α) (f : α → PyM β) (t t1 : List Event)
    (a : α) (hx : x t = (Except.ok a, t1)) : pyBind x f t = f a t1 := by
  simp [pyBind, hx]

theorem pyBind_err {α β : Type} (x : PyM α) (f : α → PyM β) (t t1 : List Event)
    (e : PyErr) (hx : x t = (Except.error e, t1)) :
    pyBind x f t = (Except.error e, t1) := by
  simp [pyBind, hx]

theorem pyTry_ok {α : Type} (x : PyM α) (h : PyErr → PyM α) (t t1 : List Event)
    (a : α) (hx : x t = (Except.ok a, t1)) : pyTry x h t = (Except.ok a, t1) := by
  simp [pyTry, hx]

theorem pyTry_err {α : Type} (x : PyM α) (h : PyErr → PyM α) (t t1 : List Event)
    (e : PyErr) (hx : x t = (Except.error e, t1)) : pyTry x h t = h e t1 := by
  simp [pyTry, hx]

/-! ## Claim C7 -/

/-- C7: the claim says press-and-hold always treats a zero or negative
duration as "send up immediately", so key-up is sent whenever key-down
succeeded.  For a negative duration `time.sleep` raises `ValueError`, the
except-clause re-raises `RuntimeError`, and the key-up is never sent: at
duration -1 both `WindowMessage.key_press_and_hold` and
`KeyboardInput.send_press_and_hold` end in error with only the key-down in
the trace. -/
theorem c7_counterexample :
    runPy (key_press_and_hold envAll 1 (KeyArg.name "a") (-1)) =
      (Except.error (PyErr.runtimeError "key press and hold failed"),
       [Event.sent 1 WM_KEYDOWN 65 1]) ∧
    runPy (send_press_and_hold envAll 1 "a" (-1)) =
      (Except.error (PyErr.runtimeError "send press and hold failed"),
       [Event.sent 1 WM_KEYDOWN 65 0]) := by
  refine ⟨by rfl, by rfl⟩

/-- C7 (amended): for every key that resolves and every *nonnegative*
duration, press-and-hold sends key-down, suspends the calling thread for the
duration, then sends key-up — zero means "send up immediately"; a negative
duration instead makes `time.sleep` raise, so the key-up is not sent even
though the key-down succeeded. -/
theorem c7_press_and_hold_nonneg :
    ∀ (env : Env) (hwnd : Int) (key : String) (vk : Nat) (d : Int),
      0 ≤ d → env.validWin hwnd = true → get_virtual_key key = Except.ok vk →
      runPy (key_press_and_hold env hwnd (KeyArg.name key) d) =
        (Except.ok true,
         [Event.sent hwnd WM_KEYDOWN (Int.ofNat vk) 1, Event.slept d,
          Event.sent hwnd WM_KEYUP (Int.ofNat vk) 1]) ∧
      runPy (send_press_and_hold env hwnd key d) =
        (Except.ok true,
         [Event.sent hwnd WM_KEYDOWN (Int.ofNat vk) 0, Event.slept d,
          Event.sent hwnd WM_KEYUP (Int.ofNat vk) 1]) := by
  intro env hwnd key vk d hd hw hkey
  have hres : resolveKey (KeyArg.name key) = Except.ok vk := hkey
  constructor
  · have h1 := key_down_press_ok env hwnd (KeyArg.name key) vk hres hw []
    have h2 := timeSleep_nonneg d hd [Event.sent hwnd WM_KEYDOWN (Int.ofNat vk) 1]
    have h3 := key_down_release_ok env hwnd (KeyArg.name key) vk hres hw
      [Event.sent hwnd WM_KEYDOWN (Int.ofNat vk) 1, Event.slept d]
    simp only [List.nil_append, List.cons_append] at h1 h2 h3
    have hb2 : pyBind (timeSleep d)
        (fun _ => key_down_release env hwnd (KeyArg.name key))
        [Event.sent hwnd WM_KEYDOWN (Int.ofNat vk) 1] =
        (Except.ok true,
         [Event.sent hwnd WM_KEYDOWN (Int.ofNat vk) 1, Event.slept d,
          Event.sent hwnd WM_KEYUP (Int.ofNat vk) 1]) := by
      rw [pyBind_ok _ _ _ _ _ h2]
      exact h3
    have hbody : pyBind (key_down_press env hwnd (KeyArg.name key))
        (fun ok => if ok = false then pyPure false
          else pyBind (timeSleep d)
            (fun _ => key_down_release env hwnd (KeyArg.name key))) [] =
        (Except.ok true,
         [Event.sent hwnd WM_KEYDOWN (Int.ofNat vk) 1, Event.slept d,
          Event.sent hwnd WM_KEYUP (Int.ofNat vk) 1]) := by
      rw [pyBind_ok _ _ _ _ _ h1]
      exact hb2
    show key_press_and_hold env hwnd (KeyArg.name key) d [] = _
    unfold key_press_and_hold
    exact pyTry_ok _ _ _ _ _ hbody
  · have h1 := send_key_down_ok env hwnd (KeyArg.name key) vk hres hw []
    have h2 := timeSleep_nonneg d hd [Event.sent hwnd WM_KEYDOWN (Int.ofNat vk) 0]
    have h3 := send_key_up_ok env hwnd (KeyArg.name key) vk hres hw
      [Event.sent hwnd WM_KEYDOWN (Int.ofNat vk) 0, Event.slept d]
    simp only [List.nil_append, List.cons_append] at h1 h2 h3
    have hb3 : pyBind (send_key_up env hwnd (KeyArg.name key))
        (fun _ => pyPure true)
        [Event.sent hwnd WM_KEYDOWN (Int.ofNat vk) 0, Event.slept d] =
        (Except.ok true,
         [Event.sent hwnd WM_KEYDOWN (Int.ofNat vk) 0, Event.slept d,
          Event.sent hwnd WM_KEYUP (Int.ofNat vk) 1]) := by
      rw [pyBind_ok _ _ _ _ _ h3]
      rfl
    have hb2 : pyBind (timeSleep d)
        (fun _ => pyBind (send_key_up env hwnd (KeyArg.name key))
          (fun _ => pyPure true))
        [Event.sent hwnd WM_KEYDOWN (Int.ofNat vk) 0] =
        (Except.ok true,
         [Event.sent hwnd WM_KEYDOWN (Int.ofNat vk) 0, Event.slept d,
          Event.sent hwnd WM_KEYUP (Int.ofNat vk) 1]) := by
      rw [pyBind_ok _ _ _ _ _ h2]
      exact hb3
    have hbody : pyBind (send_key_down env hwnd (KeyArg.name key))
        (fun _ => pyBind (timeSleep d)
          (fun _ => pyBind (send_key_up env hwnd (KeyArg.name key))
            (fun _ => pyPure true))) [] =
        (Except.ok true,
         [Event.sent hwnd WM_KEYDOWN (Int.ofNat vk) 0, Event.slept d,
          Event.sent hwnd WM_KEYUP (Int.ofNat vk) 1]) := by
      rw [pyBind_ok _ _ _ _ _ h1]
      exact hb2
    show send_press_and_hold env hwnd key d [] = _
    unfold send_press_and_hold
    exact pyTry_ok _ _ _ _ _ hbody

/-- C7 witness: the amended theorem at key "a", duration 0 — the up message
follows the down immediately. -/
theorem c7_witness :
    runPy (key_press_and_hold envAll 1 (KeyArg.name "a") 0) =
      (Except.ok true,
       [Event.sent 1 WM_KEYDOWN 65 1, Event.slept 0, Event.sent 1 WM_KEYUP 65 1]) ∧
    runPy (send_press_and_hold envAll 1 "a" 0) =
      (Except.ok true,
       [Event.sent 1 WM_KEYDOWN 65 0, Event.slept 0, Event.sent 1 WM_KEYUP 65 1]) :=
  c7_press_and_hold_nonneg envAll 1 "a" 65 0 (by decide) (by decide) (by rfl)

/-! ## Claim C9 -/

/-- C9: for every key name that fails validation (`validate_key` false, i.e.
`get_virtual_key` raises), the key-message primitives report the failure to
the caller as a raised error — not swallowed into a success — and deliver no
window message: resolution happens before any send, so the trace stays
empty.  Covers key-down/up sends, the precise press/release pair, and
press-and-hold. -/
theorem c9_unknown_key_rejected :
    ∀ (env : Env) (hwnd : Int) (k : String) (d : Int),
      validate_key k = false →
      key_down_press env hwnd (KeyArg.name k) [] =
        (Except.error (PyErr.runtimeError "key down press failed"), []) ∧
      key_down_release env hwnd (KeyArg.name k) [] =
        (Except.error (PyErr.runtimeError "key down release failed"), []) ∧
      send_key_down env hwnd (KeyArg.name k) [] =
        (Except.error (PyErr.valueError "unknown key"), []) ∧
      send_key_up env hwnd (KeyArg.name k) [] =
        (Except.error (PyErr.valueError "unknown key"), []) ∧
      runPy (key_press_and_hold env hwnd (KeyArg.name k) d) =
        (Except.error (PyErr.runtimeError "key press and hold failed"), []) := by
  intro env hwnd k d h
  have hres : resolveKey (KeyArg.name k) =
      Except.error (PyErr.valueError "unknown key") :=
    validate_key_false_resolve k h
  refine ⟨key_down_press_unknown env hwnd _ _ hres [],
    key_down_release_unknown env hwnd _ _ hres [],
    send_key_down_unknown env hwnd _ _ hres [],
    send_key_up_unknown env hwnd _ _ hres [], ?_⟩
  have hb : pyBind (key_down_press env hwnd (KeyArg.name k))
      (fun ok => if ok = false then pyPure false
        else pyBind (timeSleep d)
          (fun _ => key_down_release env hwnd (KeyArg.name k))) [] =
      (Except.error (PyErr.runtimeError "key down press failed"), []) :=
    pyBind_err _ _ _ _ _ (key_down_press_unknown env hwnd _ _ hres [])
  show key_press_and_hold env hwnd (KeyArg.name k) d [] = _
  unfold key_press_and_hold
  rw [pyTry_err _ _ _ _ _ hb]
  rfl

/-- C9 witness: the multi-character, untabulated name "bogus" is rejected by
every primitive with an empty message trace. -/
theorem c9_witness :
    key_down_press envAll 1 (KeyArg.name "bogus") [] =
      (Except.error (PyErr.runtimeError "key down press failed"), []) ∧
    key_down_release envAll 1 (KeyArg.name "bogus") [] =
      (Except.error (PyErr.runtimeError "key down release failed"), []) ∧
    send_key_down envAll 1 (KeyArg.name "bogus") [] =
      (Except.error (PyErr.valueError "unknown key"), []) ∧
    send_key_up envAll 1 (KeyArg.name "bogus") [] =
      (Except.error (PyErr.valueError "unknown key"), []) ∧
    runPy (key_press_and_hold envAll 1 (KeyArg.name "bogus") 3) =
      (Except.error (PyErr.runtimeError "key press and hold failed"), []) :=
  c9_unknown_key_rejected envAll 1 "bogus" 3 (by decide)

/-! ## Claim C8 -/

/-- Resolution of a whole modifier list, the composite of the
`get_virtual_key` calls the chord path performs. -/
def resolveAll : List String → Except PyErr (List Nat)
  | [] => Except.ok []
  | m :: rest =>
    match get_virtual_key m, resolveAll rest with
    | Except.ok v, Except.ok vs => Except.ok (v :: vs)
    | Except.error e, _ => Except.error e
    | Except.ok _, Except.error e => Except.error e

/-- Trace of pressing a list of keys with the 0.01 s pause after each. -/
def downTrace (hwnd : Int) (vks : List Nat) : List Event :=
  vks.flatMap (fun v => [Event.sent hwnd WM_KEYDOWN (Int.ofNat v) 1, Event.slept 1])

/-- Trace of releasing a list of keys with the 0.01 s pause after each. -/
def upTrace (hwnd : Int) (vks : List Nat) : List Event :=
  vks.flatMap (fun v => [Event.sent hwnd WM_KEYUP (Int.ofNat v) 1, Event.slept 1])

/-- Full trace of a successful chord: modifiers down in order, main key down
and up, modifiers up in reverse order, with the fixed pauses between. -/
def chordTrace (hwnd : Int) (vks : List Nat) (mvk : Nat) : List Event :=
  downTrace hwnd vks ++
  [Event.slept 1, Event.sent hwnd WM_KEYDOWN (Int.ofNat mvk) 1, Event.slept 1,
   Event.sent hwnd WM_KEYUP (Int.ofNat mvk) 1, Event.slept 1] ++
  upTrace hwnd vks.reverse

def isKeyUpEvent : Event → Bool
  | Event.sent _ m _ _ => m == WM_KEYUP
  | _ => false

/-- Number of key-up messages in a trace. -/
def keyUpCount (tr : List Event) : Nat := tr.countP (fun e => isKeyUpEvent e)

def isSentEvent : Event → Bool
  | Event.sent _ _ _ _ => true
  | _ => false

/-- The messages of a trace, sleeps dropped. -/
def sentEvents (tr : List Event) : List Event :=
  tr.filter (fun e => isSentEvent e)

theorem resolveAll_cons (m : String) (rest : List String) (vks : List Nat)
    (h : resolveAll (m :: rest) = Except.ok vks) :
    ∃ v vs, get_virtual_key m = Except.ok v ∧ resolveAll rest = Except.ok vs ∧
      vks = v :: vs := by
  cases hm : get_virtual_key m with
  | ok v =>
    cases hr : resolveAll rest with
    | ok vs =>
      unfold resolveAll at h
      rw [hm, hr] at h
      exact ⟨v, vs, rfl, rfl, by injection h with h1; exact h1.symm⟩
    | error e =>
      exfalso
      unfold resolveAll at h
      rw [hm, hr] at h
      exact Except.noConfusion h
  | error e =>
    exfalso
    unfold resolveAll at h
    rw [hm] at h
    exact Except.noConfusion h

theorem resolveAll_append (l1 l2 : List String) (v1 v2 : List Nat)
    (h1 : resolveAll l1 = Except.ok v1) (h2 : resolveAll l2 = Except.ok v2) :
    resolveAll (l1 ++ l2) = Except.ok (v1 ++ v2) := by
  induction l1 generalizing v1 with
  | nil =>
    unfold resolveAll at h1
    injection h1 with h1
    subst h1
    simpa using h2
  | cons m rest ih =>
    obtain ⟨v, vs, hm, hr, rfl⟩ := resolveAll_cons m rest v1 h1
    show resolveAll (m :: (rest ++ l2)) = _
    unfold resolveAll
    rw [hm, ih vs hr]
    rfl

theorem resolveAll_reverse (l : List String) (v : List Nat)
    (h : resolveAll l = Except.ok v) :
    resolveAll l.reverse = Except.ok v.reverse := by
  induction l generalizing v with
  | nil =>
    unfold resolveAll at h
    injection h with h1
    subst h1
    simp [resolveAll]
  | cons m rest ih =>
    obtain ⟨w, ws, hm, hr, rfl⟩ := resolveAll_cons m rest v h
    have hone : resolveAll [m] = Except.ok [w] := by
      unfold resolveAll
      rw [hm]
      rfl
    rw [List.reverse_cons, List.reverse_cons]
    exact resolveAll_append rest.reverse [m] ws.reverse [w] (ih ws hr) hone

theorem press_modifiers_loop_ok (env : Env) (hwnd : Int)
    (hw : env.validWin hwnd = true) :
    ∀ (mods : List String) (vks : List Nat), resolveAll mods = Except.ok vks →
      ∀ t, press_modifiers_loop env hwnd mods t =
        (Except.ok true, t ++ downTrace hwnd vks) := by
  intro mods
  induction mods with
  | nil =>
    intro vks h t
    unfold resolveAll at h
    injection h with h1
    subst h1
    simp [press_modifiers_loop, pyPure, downTrace]
  | cons m rest ih =>
    intro vks h t
    obtain ⟨v, vs, hm, hr, rfl⟩ := resolveAll_cons m rest vks h
    have hres : resolveKey (KeyArg.name m) = Except.ok v := hm
    show press_modifiers_loop env hwnd (m :: rest) t = _
    unfold press_modifiers_loop
    rw [pyBind_ok _ _ _ _ _ (key_down_press_ok env hwnd (KeyArg.name m) v hres hw t)]
    show pyBind (timeSleep 1) (fun _ => press_modifiers_loop env hwnd rest)
      (t ++ [Event.sent hwnd WM_KEYDOWN (Int.ofNat v) 1]) = _
    rw [pyBind_ok _ _ _ _ _ (timeSleep_nonneg 1 (by decide)
      (t ++ [Event.sent hwnd WM_KEYDOWN (Int.ofNat v) 1]))]
    rw [ih vs hr]
    simp [downTrace, List.append_assoc]

theorem release_modifiers_loop_ok (env : Env) (hwnd : Int)
    (hw : env.validWin hwnd = true) :
    ∀ (ms : List String) (vs : List Nat), resolveAll ms = Except.ok vs →
      ∀ t, release_modifiers_loop env hwnd ms t =
        (Except.ok true, t ++ upTrace hwnd vs) := by
  intro ms
  induction ms with
  | nil =>
    intro vs h t
    unfold resolveAll at h
    injection h with h1
    subst h1
    simp [release_modifiers_loop, pyPure, upTrace]
  | cons m rest ih =>
    intro vs h t
    obtain ⟨v, ws, hm, hr, rfl⟩ := resolveAll_cons m rest vs h
    have hres : resolveKey (KeyArg.name m) = Except.ok v := hm
    show release_modifiers_loop env hwnd (m :: rest) t = _
    unfold release_modifiers_loop
    rw [pyBind_ok _ _ _ _ _ (key_down_release_ok env hwnd (KeyArg.name m) v hres hw t)]
    show pyBind (timeSleep 1) (fun _ => release_modifiers_loop env hwnd rest)
      (t ++ [Event.sent hwnd WM_KEYUP (Int.ofNat v) 1]) = _
    rw [pyBind_ok _ _ _ _ _ (timeSleep_nonneg 1 (by decide)
      (t ++ [Event.sent hwnd WM_KEYUP (Int.ofNat v) 1]))]
    rw [ih ws hr]
    simp [upTrace, List.append_assoc]

theorem keyUpCount_downTrace (hwnd : Int) (vks : List Nat) :
    keyUpCount (downTrace hwnd vks) = 0 := by
  induction vks with
  | nil => rfl
  | cons v vs ih =>
    simp only [downTrace, List.flatMap_cons] at ih ⊢
    simp [keyUpCount, isKeyUpEvent, List.countP_cons, WM_KEYDOWN, WM_KEYUP] at ih ⊢
    exact ih

/-- C8 (amended): with a valid window, `send_chord_key` presses the resolved
modifiers in listed order, presses and releases the main key, and releases
the modifiers in reverse order — `chord(["ctrl"], "c")` therefore issues
exactly ctrl-down, c-down, c-up, ctrl-up.  But when pressing the main key
fails, it fails by raising (a completed send always yields a true boolean,
so the release-on-False cleanup branches are unreachable), and the exception
bypasses the cleanup: the call errors with the already-pressed modifiers
still down — no key-up message is emitted at all. -/
theorem c8_chord_contract :
    ∀ (env : Env) (hwnd : Int) (mods : List String) (mainKey : String)
      (vks : List Nat),
      env.validWin hwnd = true → resolveAll mods = Except.ok vks →
      (∀ mvk : Nat, get_virtual_key mainKey = Except.ok mvk →
        runPy (send_chord_key env hwnd mods mainKey) =
          (Except.ok true, chordTrace hwnd vks mvk)) ∧
      (∀ e : PyErr, get_virtual_key mainKey = Except.error e →
        runPy (send_chord_key env hwnd mods mainKey) =
          (Except.error (PyErr.runtimeError "send chord key failed"),
           downTrace hwnd vks ++ [Event.slept 1]) ∧
        keyUpCount (runPy (send_chord_key env hwnd mods mainKey)).2 = 0) := by
  intro env hwnd mods mainKey vks hwv hmods
  have s1 : press_modifiers_precisely env hwnd mods [] =
      (Except.ok true, [] ++ downTrace hwnd vks) := by
    unfold press_modifiers_precisely
    exact pyTry_ok _ _ _ _ _ (press_modifiers_loop_ok env hwnd hwv mods vks hmods [])
  have srel : ∀ t, release_modifiers_precisely env hwnd mods t =
      (Except.ok true, t ++ upTrace hwnd vks.reverse) := by
    intro t
    unfold release_modifiers_precisely
    exact pyTry_ok _ _ _ _ _ (release_modifiers_loop_ok env hwnd hwv
      mods.reverse vks.reverse (resolveAll_reverse mods vks hmods) t)
  constructor
  · intro mvk hmain
    have hres : resolveKey (KeyArg.name mainKey) = Except.ok mvk := hmain
    show send_chord_key env hwnd mods mainKey [] = _
    unfold send_chord_key
    apply pyTry_ok
    rw [pyBind_ok _ _ _ _ _ s1]
    show pyBind (timeSleep 1) (fun _ =>
        pyBind (key_down_press env hwnd (KeyArg.name mainKey)) (fun ok2 =>
          if ok2 = false then
            pyBind (release_modifiers_precisely env hwnd mods) (fun _ => pyPure false)
          else
            pyBind (timeSleep 1) (fun _ =>
              pyBind (key_down_release env hwnd (KeyArg.name mainKey)) (fun ok3 =>
                if ok3 = false then
                  pyBind (release_modifiers_precisely env hwnd mods) (fun _ => pyPure false)
                else
                  pyBind (timeSleep 1) (fun _ =>
                    release_modifiers_precisely env hwnd mods)))))
      ([] ++ downTrace hwnd vks) = _
    rw [pyBind_ok _ _ _ _ _ (timeSleep_nonneg 1 (by decide) ([] ++ downTrace hwnd vks))]
    show pyBind (key_down_press env hwnd (KeyArg.name mainKey)) (fun ok2 =>
        if ok2 = false then
          pyBind (release_modifiers_precisely env hwnd mods) (fun _ => pyPure false)
        else
          pyBind (timeSleep 1) (fun _ =>
            pyBind (key_down_release env hwnd (KeyArg.name mainKey)) (fun ok3 =>
              if ok3 = false then
                pyBind (release_modifiers_precisely env hwnd mods) (fun _ => pyPure false)
              else
                pyBind (timeSleep 1) (fun _ =>
                  release_modifiers_precisely env hwnd mods))))
      (([] ++ downTrace hwnd vks) ++ [Event.slept 1]) = _
    rw [pyBind_ok _ _ _ _ _ (key_down_press_ok env hwnd (KeyArg.name mainKey) mvk hres hwv
      (([] ++ downTrace hwnd vks) ++ [Event.slept 1]))]
    show pyBind (timeSleep 1) (fun _ =>
        pyBind (key_down_release env hwnd (KeyArg.name mainKey)) (fun ok3 =>
          if ok3 = false then
            pyBind (release_modifiers_precisely env hwnd mods) (fun _ => pyPure false)
          else
            pyBind (timeSleep 1) (fun _ =>
              release_modifiers_precisely env hwnd mods)))
      ((([] ++ downTrace hwnd vks) ++ [Event.slept 1]) ++
        [Event.sent hwnd WM_KEYDOWN (Int.ofNat mvk) 1]) = _
    rw [pyBind_ok _ _ _ _ _ (timeSleep_nonneg 1 (by decide)
      ((([] ++ downTrace hwnd vks) ++ [Event.slept 1]) ++
        [Event.sent hwnd WM_KEYDOWN (Int.ofNat mvk) 1]))]
    show pyBind (key_down_release env hwnd (KeyArg.name mainKey)) (fun ok3 =>
        if ok3 = false then
          pyBind (release_modifiers_precisely env hwnd mods) (fun _ => pyPure false)
        else
          pyBind (timeSleep 1) (fun _ =>
            release_modifiers_precisely env hwnd mods))
      (((([] ++ downTrace hwnd vks) ++ [Event.slept 1]) ++
        [Event.sent hwnd WM_KEYDOWN (Int.ofNat mvk) 1]) ++ [Event.slept 1]) = _
    rw [pyBind_ok _ _ _ _ _ (key_down_release_ok env hwnd (KeyArg.name mainKey) mvk hres hwv
      (((([] ++ downTrace hwnd vks) ++ [Event.slept 1]) ++
        [Event.sent hwnd WM_KEYDOWN (Int.ofNat mvk) 1]) ++ [Event.slept 1]))]
    show pyBind (timeSleep 1) (fun _ => release_modifiers_precisely env hwnd mods)
      ((((([] ++ downTrace hwnd vks) ++ [Event.slept 1]) ++
        [Event.sent hwnd WM_KEYDOWN (Int.ofNat mvk) 1]) ++ [Event.slept 1]) ++
        [Event.sent hwnd WM_KEYUP (Int.ofNat mvk) 1]) = _
    rw [pyBind_ok _ _ _ _ _ (timeSleep_nonneg 1 (by decide)
      ((((([] ++ downTrace hwnd vks) ++ [Event.slept 1]) ++
        [Event.sent hwnd WM_KEYDOWN (Int.ofNat mvk) 1]) ++ [Event.slept 1]) ++
        [Event.sent hwnd WM_KEYUP (Int.ofNat mvk) 1]))]
    show release_modifiers_precisely env hwnd mods
      (((((([] ++ downTrace hwnd vks) ++ [Event.slept 1]) ++
        [Event.sent hwnd WM_KEYDOWN (Int.ofNat mvk) 1]) ++ [Event.slept 1]) ++
        [Event.sent hwnd WM_KEYUP (Int.ofNat mvk) 1]) ++ [Event.slept 1]) = _
    rw [srel]
    simp [chordTrace, List.append_assoc]
  · intro e hmain
    have hresE : resolveKey (KeyArg.name mainKey) = Except.error e := hmain
    have heq : runPy (send_chord_key env hwnd mods mainKey) =
        (Except.error (PyErr.runtimeError "send chord key failed"),
         downTrace hwnd vks ++ [Event.slept 1]) := by
      show send_chord_key env hwnd mods mainKey [] = _
      unfold send_chord_key
      refine (pyTry_err _ _ _ (([] ++ downTrace hwnd vks) ++ [Event.slept 1])
        (PyErr.runtimeError "key down press failed") ?_).trans ?_
      · rw [pyBind_ok _ _ _ _ _ s1]
        show pyBind (timeSleep 1) (fun _ =>
            pyBind (key_down_press env hwnd (KeyArg.name mainKey)) (fun ok2 =>
              if ok2 = false then
                pyBind (release_modifiers_precisely env hwnd mods) (fun _ => pyPure false)
              else
                pyBind (timeSleep 1) (fun _ =>
                  pyBind (key_down_release env hwnd (KeyArg.name mainKey)) (fun ok3 =>
                    if ok3 = false then
                      pyBind (release_modifiers_precisely env hwnd mods) (fun _ => pyPure false)
                    else
                      pyBind (timeSleep 1) (fun _ =>
                        release_modifiers_precisely env hwnd mods)))))
          ([] ++ downTrace hwnd vks) = _
        rw [pyBind_ok _ _ _ _ _ (timeSleep_nonneg 1 (by decide) ([] ++ downTrace hwnd vks))]
        show pyBind (key_down_press env hwnd (KeyArg.name mainKey)) (fun ok2 =>
            if ok2 = false then
              pyBind (release_modifiers_precisely env hwnd mods) (fun _ => pyPure false)
            else
              pyBind (timeSleep 1) (fun _ =>
                pyBind (key_down_release env hwnd (KeyArg.name mainKey)) (fun ok3 =>
                  if ok3 = false then
                    pyBind (release_modifiers_precisely env hwnd mods) (fun _ => pyPure false)
                  else
                    pyBind (timeSleep 1) (fun _ =>
                      release_modifiers_precisely env hwnd mods))))
          (([] ++ downTrace hwnd vks) ++ [Event.slept 1]) = _
        exact pyBind_err _ _ _ _ _ (key_down_press_unknown env hwnd (KeyArg.name mainKey) e
          hresE (([] ++ downTrace hwnd vks) ++ [Event.slept 1]))
      · rfl
    refine ⟨heq, ?_⟩
    rw [heq]
    show keyUpCount (downTrace hwnd vks ++ [Event.slept 1]) = 0
    unfold keyUpCount
    rw [List.countP_append]
    have h0 := keyUpCount_downTrace hwnd vks
    unfold keyUpCount at h0
    rw [h0]
    rfl

/-- C8: the claim says that if pressing the main key fails, the
already-pressed modifiers are released before the call returns failure.  At
modifiers `["ctrl"]` with a main key that does not resolve, the press fails
by raising: the call errors out with ctrl still down — the trace holds the
ctrl key-down and two sleeps, and not a single key-up message. -/
theorem c8_counterexample :
    runPy (send_chord_key envAll 1 ["ctrl"] "qq") =
      (Except.error (PyErr.runtimeError "send chord key failed"),
       [Event.sent 1 WM_KEYDOWN 17 1, Event.slept 1, Event.slept 1]) ∧
    keyUpCount (runPy (send_chord_key envAll 1 ["ctrl"] "qq")).2 = 0 := by
  refine ⟨by rfl, by rfl⟩

/-- C8 witness: the contract at chord(["ctrl"], "c") — the messages of the
trace are exactly ctrl-down, c-down, c-up, ctrl-up in that order — and at
chord(["ctrl"], "qq"), where the failed main-key press leaves ctrl down. -/
theorem c8_witness :
    runPy (send_chord_key envAll 1 ["ctrl"] "c") =
      (Except.ok true, chordTrace 1 [17] 67) ∧
    sentEvents (chordTrace 1 [17] 67) =
      [Event.sent 1 WM_KEYDOWN 17 1, Event.sent 1 WM_KEYDOWN 67 1,
       Event.sent 1 WM_KEYUP 67 1, Event.sent 1 WM_KEYUP 17 1] ∧
    runPy (send_chord_key envAll 1 ["ctrl"] "qq") =
      (Except.error (PyErr.runtimeError "send chord key failed"),
       downTrace 1 [17] ++ [Event.slept 1]) :=
  ⟨(c8_chord_contract envAll 1 ["ctrl"] "c" [17] (by decide) (by rfl)).1 67 (by rfl),
   by decide,
   ((c8_chord_contract envAll 1 ["ctrl"] "qq" [17] (by decide) (by rfl)).2
     (PyErr.valueError "unknown key") (by rfl)).1⟩
